import Mathlib

/-!
Verification of the media/transcription core of the `enjoy` application.

The definitions below are shallow embeddings of the TypeScript sources:
  * `src/enjoy/src/main/db/models/transcription.ts` (class `Transcription`)
  * `src/enjoy/src/main/db/models/audio.ts` (classes `Audio` and `Recording`)
  * `src/enjoy/src/main/db/models/video.ts` (classes `Video` and `Downloader`)
External collaborators that live outside these files (the whisper speech-to-text
module, the remote blob storage, the Electron download item, the uuid library)
are modelled as oracle parameters describing the outcome of one interaction.
Database `update` calls are modelled as pure record updates; the sequence of
`state` values written by `Transcription.process` is recorded explicitly so
that the state-machine transitions can be inspected.
-/

namespace Enjoy

/-- The transcription lifecycle states, `transcription.ts` line 44:
`DataType.ENUM("pending", "processing", "finished")`. -/
inductive TState
  | pending
  | processing
  | finished
deriving DecidableEq, Repr

/-- The fields of a `Transcription` row that `process` reads or writes
(`transcription.ts` lines 27-57). -/
structure TranscriptionRec where
  id : String
  targetId : String
  targetType : String
  targetMd5 : String
  state : TState
  engine : Option String
  model : Option String
  result : Option String
deriving DecidableEq, Repr

/-- A successful answer of `whisper.transcribe`: the destructured
`{ model, transcription }` of `transcription.ts` line 101.  `model?.type`
may be absent, hence the `Option`. -/
structure WhisperOut where
  modelType : Option String
  transcription : String
deriving DecidableEq, Repr

/-- The failures that can surface during one `process` attempt. -/
inductive ProcErr
  | targetMissing
  | noFilePath
  | whisperFailed
  | groupFailed
deriving DecidableEq, Repr

/-- Result marker of one `process` attempt: normal return or re-raised error. -/
inductive ProcRes
  | ok
  | err (e : ProcErr)
deriving DecidableEq, Repr

/-- Environment of one `process` attempt: the `filePath` of the target row
found by `Audio.findByPk` / `Video.findByPk` (`none` models a missing row,
where reading `.filePath` of `null` throws), the outcome of the external
`whisper.transcribe` call (`none` models a rejected call) and the outcome of
`whisper.groupTranscription` on a given raw transcription (`none` models a
thrown post-processing error). -/
structure ProcEnv where
  audioFilePath : Option String
  videoFilePath : Option String
  whisper : Option WhisperOut
  group : String → Option String

/-- Output of one `process` attempt: the updated record, the returned or
re-raised result, the list of `force` flags passed to the external
`whisper.transcribe` collaborator (one entry per invocation), and the sequence
of `state` values written through `this.update`. -/
structure ProcOut where
  record : TranscriptionRec
  res : ProcRes
  calls : List Bool
  stateWrites : List TState
deriving DecidableEq, Repr

/-- File-path resolution of `transcription.ts` lines 85-90: `filePath` starts
as the empty string and is replaced by the target row's `filePath` when the
`targetType` tag matches `"Audio"` or `"Video"`; a missing row makes the
property read throw. -/
def resolveFilePath (r : TranscriptionRec) (env : ProcEnv) : ProcRes ⊕ String :=
  if r.targetType = "Audio" then
    match env.audioFilePath with
    | none => Sum.inl (ProcRes.err ProcErr.targetMissing)
    | some p => Sum.inr p
  else if r.targetType = "Video" then
    match env.videoFilePath with
    | none => Sum.inl (ProcRes.err ProcErr.targetMissing)
    | some p => Sum.inr p
  else
    Sum.inr ""

/-- `Transcription.process` (`transcription.ts` lines 79-130).  Guard: return
at once if the state is `processing`.  Then resolve the target's file path
(throwing `"No file path."` on an empty path, both before the `try` block).
Inside the `try` block: write `state = processing`, call `whisper.transcribe`
(forwarding `force`), group the raw output, then write
`engine/model/result/state = finished`; the `catch` block writes
`state = pending` and re-raises. -/
def process (r : TranscriptionRec) (force : Bool) (env : ProcEnv) : ProcOut :=
  if r.state = TState.processing then
    { record := r, res := ProcRes.ok, calls := [], stateWrites := [] }
  else
    match resolveFilePath r env with
    | Sum.inl e => { record := r, res := e, calls := [], stateWrites := [] }
    | Sum.inr filePath =>
      if filePath = "" then
        { record := r, res := ProcRes.err ProcErr.noFilePath, calls := [], stateWrites := [] }
      else
        match env.whisper with
        | none =>
          { record := { r with state := TState.pending },
            res := ProcRes.err ProcErr.whisperFailed,
            calls := [force],
            stateWrites := [TState.processing, TState.pending] }
        | some w =>
          match env.group w.transcription with
          | none =>
            { record := { r with state := TState.pending },
              res := ProcRes.err ProcErr.groupFailed,
              calls := [force],
              stateWrites := [TState.processing, TState.pending] }
          | some g =>
            let r2 := { r with
                        engine := some "whisper",
                        model := w.modelType,
                        result := some g,
                        state := TState.finished }
            { record := r2,
              res := ProcRes.ok,
              calls := [force],
              stateWrites := [TState.processing, TState.finished] }

/-- The dispatch of `Audio.transcribe` / `Video.transcribe` on an existing
transcription row (`audio.ts` lines 299-309, `video.ts` lines 320-330):
`pending` starts `process()` without force, `finished` starts
`process({ force: true })`, `processing` only logs a warning. -/
def transcribeDispatch (t : TranscriptionRec) (env : ProcEnv) : ProcOut :=
  if t.state = TState.pending then process t false env
  else if t.state = TState.finished then process t true env
  else { record := t, res := ProcRes.ok, calls := [], stateWrites := [] }

/-- Consecutive pairs of a state trace beginning at a given state. -/
def chainPairs : TState → List TState → List (TState × TState)
  | _, [] => []
  | s, t :: rest => (s, t) :: chainPairs t rest

/-- The transition relation claimed for the transcription state machine. -/
def admittedTransition : TState → TState → Bool
  | TState.pending, TState.processing => true
  | TState.processing, TState.finished => true
  | TState.processing, TState.pending => true
  | TState.finished, TState.processing => true
  | _, _ => false

/-- A transcription row currently in the `processing` state. -/
def tRecProcessing : TranscriptionRec :=
  { id := "t1", targetId := "a1", targetType := "Audio", targetMd5 := "m1",
    state := TState.processing, engine := none, model := none, result := none }

/-- A transcription row in the `finished` state. -/
def tRecFinished : TranscriptionRec :=
  { id := "t2", targetId := "a2", targetType := "Audio", targetMd5 := "m2",
    state := TState.finished, engine := some "whisper", model := some "base",
    result := some "old" }

/-- An environment in which the target row exists and the external
speech-to-text call succeeds. -/
def envGood : ProcEnv :=
  { audioFilePath := some "/lib/audios/m2.mp3", videoFilePath := none,
    whisper := some { modelType := some "base", transcription := "hello" },
    group := fun s => some s }

/-- An environment in which the target Audio row has been deleted, so
`Audio.findByPk` yields `null` and reading `.filePath` throws. -/
def envNoTargetRow : ProcEnv :=
  { audioFilePath := none, videoFilePath := none,
    whisper := none, group := fun _ => none }

/-! ### Ingestion (`Audio.buildFromLocalFile`, `audio.ts` lines 218-284) -/

/-- Library state relevant to ingestion: the `md5` values of the existing
Audio rows (the column is `@Unique`) and the file names present in the
library's `audios` directory (files are named `<md5><extname>`). -/
structure LibState where
  audioRows : List String
  files : List String
deriving DecidableEq, Repr

/-- The errors `Audio.buildFromLocalFile` can raise: unreadable source,
unsupported extension, copy/verification failure, and rejection of
`record.save()` by the unique-md5 constraint. -/
inductive IngestErr
  | fileNotFound
  | fileNotSupported
  | failedToCopyFile
  | uniqueMd5Violation
deriving DecidableEq, Repr

/-- Outcome marker of `Audio.buildFromLocalFile`: a created Audio row, or the
re-route of a video-format file to `Video.buildFromLocalFile`. -/
inductive BuildOutcome
  | created (md5 : String)
  | routedToVideo
deriving DecidableEq, Repr

/-- Result of `Audio.buildFromLocalFile`. -/
inductive BuildRes
  | ok (o : BuildOutcome)
  | err (e : IngestErr)
deriving DecidableEq, Repr

/-- Per-call environment of `Audio.buildFromLocalFile`: whether
`fs.accessSync(filePath, R_OK)` succeeds, the source extension
(`path.extname`), membership of the extension in the `VideoFormats` /
`AudioFormats` constant lists, the `hashFile` md5 digest, and whether the
copy-into-library block (`ensureDirSync` + `copySync` + `accessSync`)
succeeds. -/
structure IngestEnv where
  readable : Bool
  extname : String
  isVideoFormat : Bool
  isAudioFormat : Bool
  md5 : String
  copyOk : Bool
deriving DecidableEq, Repr

/-- `Audio.buildFromLocalFile` (`audio.ts` lines 218-284).  Order of the
source: readability check, format routing/check, md5, copy into
`audios/<md5><extname>` (overwriting any file already there), build the row,
then `record.save()`; when `save` rejects (unique `md5` column already has a
row), the `catch` handler runs `fs.removeSync(destFile)` on the hash-derived
destination path and re-raises. -/
def buildFromLocalFile (st : LibState) (env : IngestEnv) : LibState × BuildRes :=
  if env.readable = false then
    (st, BuildRes.err IngestErr.fileNotFound)
  else if env.isVideoFormat then
    (st, BuildRes.ok BuildOutcome.routedToVideo)
  else if env.isAudioFormat = false then
    (st, BuildRes.err IngestErr.fileNotSupported)
  else
    let destFile := env.md5 ++ env.extname
    if env.copyOk = false then
      (st, BuildRes.err IngestErr.failedToCopyFile)
    else
      let files1 := if destFile ∈ st.files then st.files else destFile :: st.files
      if env.md5 ∈ st.audioRows then
        ({ audioRows := st.audioRows, files := files1.filter (fun f => f ≠ destFile) },
         BuildRes.err IngestErr.uniqueMd5Violation)
      else
        ({ audioRows := env.md5 :: st.audioRows, files := files1 },
         BuildRes.ok (BuildOutcome.created env.md5))

/-- A library that already holds the Audio row with md5 `abc123` and its
backing file `abc123.mp3`. -/
def dupLibState : LibState :=
  { audioRows := ["abc123"], files := ["abc123.mp3"] }

/-- Re-ingestion of the same audio file: same bytes, so the same md5. -/
def dupIngestEnv : IngestEnv :=
  { readable := true, extname := ".mp3", isVideoFormat := false,
    isAudioFormat := true, md5 := "abc123", copyOk := true }

/-! ### Deterministic id (`setupDefaultAttributes`, `audio.ts` lines 169-183,
`video.ts` lines 190-204) -/

/-- The fields of an Audio row touched by `setupDefaultAttributes`. -/
structure AudioRec where
  id : String
  md5 : String
  metadata : List (String × String)
deriving DecidableEq, Repr

/-- The fields of a Video row touched by `setupDefaultAttributes`. -/
structure VideoRec where
  id : String
  md5 : String
  metadata : List (String × String)
deriving DecidableEq, Repr

/-- `uuidv5.URL`, the RFC 4122 namespace the source passes as second argument
of `uuidv5`. -/
def uuidURLNamespace : String := "6ba7b811-9dad-11d1-80b4-00c04fd430c8"

/-- `Object.assign(base, extra)`: all keys of both, keys of `extra` win. -/
def mergeAssign (base extra : List (String × String)) : List (String × String) :=
  extra ++ base.filter (fun kv => extra.all (fun kv2 => kv2.1 ≠ kv.1))

/-- `Audio.setupDefaultAttributes` (`audio.ts` lines 169-183): merge probed
file metadata into `metadata` (probe failure is logged and non-fatal), then
assign `id = uuidv5(userId + "/" + md5, uuidv5.URL)`.  The uuid library is
external, so `uuidv5` is an arbitrary function parameter. -/
def audioSetupDefaultAttributes (uuidv5 : String → String → String) (userId : String)
    (probe : Option (List (String × String))) (a : AudioRec) : AudioRec :=
  let a1 :=
    match probe with
    | some fm => { a with metadata := mergeAssign a.metadata fm }
    | none => a
  { a1 with id := uuidv5 (userId ++ "/" ++ a1.md5) uuidURLNamespace }

/-- `Video.setupDefaultAttributes` (`video.ts` lines 190-204), identical in
shape to the Audio version. -/
def videoSetupDefaultAttributes (uuidv5 : String → String → String) (userId : String)
    (probe : Option (List (String × String))) (v : VideoRec) : VideoRec :=
  let v1 :=
    match probe with
    | some fm => { v with metadata := mergeAssign v.metadata fm }
    | none => v
  { v1 with id := uuidv5 (userId ++ "/" ++ v1.md5) uuidURLNamespace }

/-! ### Sync staleness (`isSynced` getter, `audio.ts` lines 95-98,
`video.ts` lines 95-98, `transcription.ts` lines 65-68, Recording likewise) -/

/-- The two timestamps the `isSynced` getter reads.  `syncedAt` is a nullable
column (`none` = `null`, on which `Boolean()` is false; a `Date` object is
always truthy); times are modelled as naturals. -/
structure SyncStamps where
  syncedAt : Option Nat
  updatedAt : Nat
deriving DecidableEq, Repr

/-- The shared getter `Boolean(this.syncedAt) && this.syncedAt >= this.updatedAt`. -/
def isSynced (s : SyncStamps) : Bool :=
  match s.syncedAt with
  | none => false
  | some t => decide (s.updatedAt ≤ t)

/-- Any mutation of the record: sequelize timestamps set `updatedAt` to the
time of the write. -/
def recordUpdate (s : SyncStamps) (now : Nat) : SyncStamps :=
  { s with updatedAt := now }

/-! ### Upload (`Audio.upload`, `audio.ts` lines 140-157; `Video.upload`,
`video.ts` lines 161-178; `Recording.upload` likewise) -/

/-- The nullable `uploadedAt` column; `isUploaded` is `Boolean(uploadedAt)`. -/
structure UploadStamps where
  uploadedAt : Option Nat
deriving DecidableEq, Repr

/-- Outcome of one `storage.put(md5, filePath)` interaction: the promise
fulfills with `result.data.success` truthy, fulfills with it falsy (the
method then throws), or rejects in transport. -/
inductive PutOutcome
  | success
  | reportedFailure
  | transportError
deriving DecidableEq, Repr

/-- Result marker of one `upload` call. -/
inductive UploadRes
  | skipped
  | uploaded
  | failed
deriving DecidableEq, Repr

/-- Output of one `upload` call: the updated stamps, the result, and how many
times the remote blob-put collaborator was invoked. -/
structure UploadOut where
  stamps : UploadStamps
  res : UploadRes
  putCalls : Nat
deriving DecidableEq, Repr

/-- `upload(force)`: return at once when `isUploaded && !force`; otherwise
call `storage.put`; on a truthy `result.data.success` write
`uploadedAt = new Date()`; on a falsy success report or a rejected promise
re-raise and leave the stamps alone. -/
def upload (r : UploadStamps) (force : Bool) (put : PutOutcome) (now : Nat) : UploadOut :=
  if r.uploadedAt.isSome && !force then
    { stamps := r, res := UploadRes.skipped, putCalls := 0 }
  else
    match put with
    | PutOutcome.success =>
      { stamps := { uploadedAt := some now }, res := UploadRes.uploaded, putCalls := 1 }
    | PutOutcome.reportedFailure =>
      { stamps := r, res := UploadRes.failed, putCalls := 1 }
    | PutOutcome.transportError =>
      { stamps := r, res := UploadRes.failed, putCalls := 1 }

/-! ### Recording counter hooks (`audio.ts` lines 538-548 and 565-575) -/

/-- The fields of a Recording row the counter hooks read. -/
structure RecordingRow where
  rid : String
  targetType : String
  targetId : String
  duration : Int
deriving DecidableEq, Repr

/-- Registry state: the live Recording rows plus the denormalized
`(recordingsCount, recordingsDuration)` counters of every Audio and every
Video row, keyed by row id (the parent row is assumed to exist, as
`findByPk` finds it before `increment`/`decrement` runs). -/
structure RegState where
  recordings : List RecordingRow
  audioCounters : String → Int × Int
  videoCounters : String → Int × Int

/-- `audio.increment`/`audio.decrement` on the two counter columns: an atomic
in-place bump of the row with the given id. -/
def bumpCounters (m : String → Int × Int) (id : String) (dc dd : Int) : String → Int × Int :=
  fun j => if j = id then ((m j).1 + dc, (m j).2 + dd) else m j

/-- `Recording.increaseResourceCache` (`audio.ts` lines 538-548): an
`@AfterCreate` hook that returns at once unless `targetType === "Audio"`,
else increments the parent Audio's `recordingsCount` by 1 and
`recordingsDuration` by the recording's duration. -/
def increaseResourceCache (st : RegState) (r : RecordingRow) : RegState :=
  if r.targetType ≠ "Audio" then st
  else { st with audioCounters := bumpCounters st.audioCounters r.targetId 1 r.duration }

/-- `Recording.decreaseResourceCache` (`audio.ts` lines 565-575): an
`@AfterDestroy` hook that decrements the same two counters, again only when
`targetType === "Audio"`. -/
def decreaseResourceCache (st : RegState) (r : RecordingRow) : RegState :=
  if r.targetType = "Audio" then
    { st with audioCounters := bumpCounters st.audioCounters r.targetId (-1) (-r.duration) }
  else st

/-- Creation of a Recording row followed by its `@AfterCreate` counter hook. -/
def createRecording (st : RegState) (r : RecordingRow) : RegState :=
  increaseResourceCache { st with recordings := r :: st.recordings } r

/-- Destruction of a Recording row followed by its `@AfterDestroy` counter
hook. -/
def destroyRecording (st : RegState) (r : RecordingRow) : RegState :=
  decreaseResourceCache { st with recordings := st.recordings.erase r } r

/-- The live Recording rows attached to a given Audio row. -/
def liveAudioRecordings (st : RegState) (id : String) : List RecordingRow :=
  st.recordings.filter (fun r => r.targetType = "Audio" && r.targetId = id)

/-- The live Recording rows attached to a given Video row. -/
def liveVideoRecordings (st : RegState) (id : String) : List RecordingRow :=
  st.recordings.filter (fun r => r.targetType = "Video" && r.targetId = id)

/-- The Audio counters of `id` agree with the live rows: count equals the
number of rows, duration equals their summed durations. -/
def audioConsistent (st : RegState) (id : String) : Prop :=
  st.audioCounters id =
    (((liveAudioRecordings st id).length : Int),
     ((liveAudioRecordings st id).map RecordingRow.duration).sum)

/-- The Video counters of `id` agree with the live rows. -/
def videoConsistent (st : RegState) (id : String) : Prop :=
  st.videoCounters id =
    (((liveVideoRecordings st id).length : Int),
     ((liveVideoRecordings st id).map RecordingRow.duration).sum)

/-- An empty registry with all counters zero. -/
def regState0 : RegState :=
  { recordings := [], audioCounters := fun _ => (0, 0), videoCounters := fun _ => (0, 0) }

/-- A Recording attached to the Video row `v1`. -/
def videoRecordingRow : RecordingRow :=
  { rid := "r1", targetType := "Video", targetId := "v1", duration := 5 }

/-- A Recording attached to the Audio row `a1`. -/
def audioRecordingRow : RecordingRow :=
  { rid := "r2", targetType := "Audio", targetId := "a1", duration := 7 }

/-! ### Downloader (`video.ts` lines 355-457) -/

/-- The states an Electron `DownloadItem` reports: `progressing` or
`interrupted` through `updated` events, `completed`, `cancelled` or
`interrupted` through the one final `done` event. -/
inductive DlState
  | progressing
  | completed
  | cancelled
  | interrupted
deriving DecidableEq, Repr

/-- How the promise built by `Downloader.download` settles: `resolve`
carries `item.getSavePath()` or `undefined`; `reject` is never used by the
source (`_reject`), but is part of the promise interface. -/
inductive Settle
  | resolved (v : Option String)
  | rejected
deriving DecidableEq, Repr

/-- Observable account of one `download` call: how the promise has settled
(`none` while still pending — a promise settles at most once) and whether
bytes are present at the configured save path. -/
structure DlAcc where
  settled : Option Settle
  hasFile : Bool
deriving DecidableEq, Repr

/-- A promise settles only once; later settlement attempts are ignored. -/
def settleOnce (acc : DlAcc) (s : Settle) : DlAcc :=
  match acc.settled with
  | some _ => acc
  | none => { acc with settled := some s }

/-- One `updated` event (`video.ts` lines 383-394): emit progress, and
`resolve(undefined)` when the reported state is `interrupted`. -/
def handleUpdated (acc : DlAcc) (s : DlState) : DlAcc :=
  if s = DlState.interrupted then settleOnce acc (Settle.resolved none) else acc

/-- The one `done` event (`video.ts` lines 396-412): on `completed`,
`resolve(item.getSavePath())`; on any other terminal state,
`fs.rmSync(item.getSavePath(), { force: true })` then `resolve(undefined)`. -/
def handleDone (savePath : String) (acc : DlAcc) (s : DlState) : DlAcc :=
  if s = DlState.completed then settleOnce acc (Settle.resolved (some savePath))
  else settleOnce { acc with hasFile := false } (Settle.resolved none)

/-- A whole transfer: the partial file appears at the save path while bytes
arrive, any number of `updated` events fire, then the single `done` event
fires with the terminal state. -/
def runDownload (savePath : String) (upds : List DlState) (final : DlState) : DlAcc :=
  handleDone savePath (upds.foldl handleUpdated { settled := none, hasFile := true }) final

/-- `Downloader.cancel(filename)` (`video.ts` lines 417-422): find the first
tracked task with that filename; call `item.cancel()` (which makes Electron
finish the item with the `cancelled` state) only when the task is currently
`progressing`; otherwise do nothing. -/
def cancelTriggersAbort (tasks : List (String × DlState)) (filename : String) : Bool :=
  match tasks.find? (fun t => t.1 = filename) with
  | some t => t.2 = DlState.progressing
  | none => false

/-! ## Theorems -/

/-- C1 (counterexample): not every failing `process` attempt leaves the
record in the `pending` state.  A forced-style re-process of a `finished`
transcription whose target Audio row is missing fails during file-path
resolution — before the write of `state = processing` — and the record stays
`finished`, even though the failure is re-raised. -/
theorem process_failure_leaves_finished_cex :
    (process tRecFinished false envNoTargetRow).res = ProcRes.err ProcErr.targetMissing ∧
    (process tRecFinished false envNoTargetRow).record.state ≠ TState.pending := by
  refine ⟨rfl, ?_⟩
  decide

/-- C1 (amended): whenever a `process` attempt fails, the failure is
re-raised and the record is never left in the `processing` state; if the
external speech-to-text collaborator was invoked (the failure arose inside
the `try` block), the state has been rolled back to `pending`; if it was not
invoked (file-path resolution failed before the `try` block), the record is
completely unchanged — in particular a record that was `pending` on entry is
still `pending`. -/
theorem process_failure_rollback (r : TranscriptionRec) (force : Bool) (env : ProcEnv)
    (e : ProcErr) (h : (process r force env).res = ProcRes.err e) :
    (process r force env).record.state ≠ TState.processing ∧
    ((process r force env).calls ≠ [] → (process r force env).record.state = TState.pending) ∧
    ((process r force env).calls = [] → (process r force env).record = r) := by
  revert h
  unfold process
  split
  · intro h
    exact ProcRes.noConfusion h
  · next hs =>
    split
    · intro _
      exact ⟨hs, fun hc => absurd rfl hc, fun _ => rfl⟩
    · split
      · intro _
        exact ⟨hs, fun hc => absurd rfl hc, fun _ => rfl⟩
      · split
        · intro _
          exact ⟨fun hc => TState.noConfusion hc, fun _ => rfl,
                 fun hc => List.noConfusion hc⟩
        · split
          · intro _
            exact ⟨fun hc => TState.noConfusion hc, fun _ => rfl,
                   fun hc => List.noConfusion hc⟩
          · intro h
            exact ProcRes.noConfusion h

/-- C1 (witness): a `pending` record whose external speech-to-text call
fails is rolled back to `pending` after the attempt. -/
theorem process_failure_rollback_witness :
    (process tRecProcessing false envNoTargetRow).record = tRecProcessing ∨
    (process { tRecProcessing with state := TState.pending } false
        { envGood with whisper := none }).record.state = TState.pending := by
  refine Or.inr ?_
  exact (process_failure_rollback { tRecProcessing with state := TState.pending } false
    { envGood with whisper := none } ProcErr.whisperFailed rfl).2.1 (by decide)

/-- C2: calling `process` on a record whose state is `processing` — with or
without force — returns immediately: the external speech-to-text collaborator
is not invoked, no state is written and no field of the record changes. -/
theorem process_processing_noop (r : TranscriptionRec) (force : Bool) (env : ProcEnv)
    (h : r.state = TState.processing) :
    process r force env =
      { record := r, res := ProcRes.ok, calls := [], stateWrites := [] } := by
  unfold process
  rw [if_pos h]

/-- C2 (witness): the guard at a concrete `processing` record. -/
theorem process_processing_noop_witness :
    process tRecProcessing true envGood =
      { record := tRecProcessing, res := ProcRes.ok, calls := [], stateWrites := [] } :=
  process_processing_noop tRecProcessing true envGood rfl

/-- C3 (counterexample): `process` called without the force flag on a
`finished` record does start a new attempt: the external collaborator is
invoked (with `force = false` forwarded to it), the state is driven through
`processing` back to `finished`, and the stored result is overwritten. -/
theorem process_finished_without_force_cex :
    (process tRecFinished false envGood).calls = [false] ∧
    (process tRecFinished false envGood).stateWrites =
      [TState.processing, TState.finished] ∧
    (process tRecFinished false envGood).record.result = some "hello" := by
  exact ⟨rfl, rfl, rfl⟩

/-- Helper: every pair of consecutive states written by one `process` attempt
(starting from the entry state) is one of `pending → processing`,
`processing → finished`, `processing → pending`, `finished → processing`. -/
theorem process_writes_admitted (r : TranscriptionRec) (force : Bool) (env : ProcEnv) :
    ∀ p ∈ chainPairs r.state (process r force env).stateWrites,
      admittedTransition p.1 p.2 = true := by
  by_cases h1 : r.state = TState.processing
  · simp [process, h1, chainPairs]
  · have hstart : admittedTransition r.state TState.processing = true := by
      cases hr : r.state
      · rfl
      · exact absurd hr h1
      · rfl
    cases hfp : resolveFilePath r env with
    | inl e => simp [process, h1, hfp, chainPairs]
    | inr fp =>
      by_cases h2 : fp = ""
      · simp [process, h1, hfp, h2, chainPairs]
      · cases hw : env.whisper with
        | none =>
          intro p hp
          simp [process, h1, hfp, h2, hw, chainPairs] at hp
          rcases hp with h | h <;> subst h
          · exact hstart
          · rfl
        | some w =>
          cases hg : env.group w.transcription with
          | none =>
            intro p hp
            simp [process, h1, hfp, h2, hw, hg, chainPairs] at hp
            rcases hp with h | h <;> subst h
            · exact hstart
            · rfl
          | some g =>
            intro p hp
            simp [process, h1, hfp, h2, hw, hg, chainPairs] at hp
            rcases hp with h | h <;> subst h
            · exact hstart
            · rfl

/-- Helper: the `force` flag plays no role in the control flow of `process`
itself — it is only forwarded to the external collaborator.  Both calls
produce the same record, result and state writes. -/
theorem process_force_only_forwarded (r : TranscriptionRec) (env : ProcEnv) :
    (process r false env).record = (process r true env).record ∧
    (process r false env).res = (process r true env).res ∧
    (process r false env).stateWrites = (process r true env).stateWrites := by
  by_cases h1 : r.state = TState.processing
  · simp [process, h1]
  · cases hfp : resolveFilePath r env with
    | inl e => simp [process, h1, hfp]
    | inr fp =>
      by_cases h2 : fp = ""
      · simp [process, h1, hfp, h2]
      · cases hw : env.whisper with
        | none => simp [process, h1, hfp, h2, hw]
        | some w =>
          cases hg : env.group w.transcription with
          | none => simp [process, h1, hfp, h2, hw, hg]
          | some g => simp [process, h1, hfp, h2, hw, hg]

/-- C3 (amended): every state written during a `process` attempt follows the
admitted transitions `pending → processing`, `processing → finished`,
`processing → pending`, `finished → processing`; but the `force` flag does
not gate any transition of `process` itself (a call without force on a
`finished` record behaves identically except for the flag forwarded to the
collaborator); the `finished → processing`-with-`force = true` policy is
implemented by the owning asset's `transcribe()` dispatch, which invokes
`process` with the force flag exactly when the existing transcription is
`finished`. -/
theorem process_admitted_transitions (r t : TranscriptionRec) (force : Bool) (env : ProcEnv) :
    (∀ p ∈ chainPairs r.state (process r force env).stateWrites,
        admittedTransition p.1 p.2 = true) ∧
    ((process r false env).record = (process r true env).record ∧
     (process r false env).res = (process r true env).res ∧
     (process r false env).stateWrites = (process r true env).stateWrites) ∧
    (t.state = TState.finished → transcribeDispatch t env = process t true env) := by
  refine ⟨process_writes_admitted r force env, process_force_only_forwarded r env, ?_⟩
  intro ht
  simp [transcribeDispatch, ht]

/-- C3 (witness): the amended statement at a concrete `finished` record. -/
theorem process_admitted_transitions_witness :
    admittedTransition TState.finished TState.processing = true ∧
    transcribeDispatch tRecFinished envGood = process tRecFinished true envGood := by
  refine ⟨?_, (process_admitted_transitions tRecFinished tRecFinished false envGood).2.2 rfl⟩
  have h := (process_admitted_transitions tRecFinished tRecFinished true envGood).1
  exact h (TState.finished, TState.processing) (by decide)

/-- C4 (code bug): re-ingesting a file whose md5 is already registered fails
with the unique-constraint error and creates no second row — but the
save-failure handler `fs.removeSync(destFile)` runs on the hash-derived
destination path, which is exactly where the library's existing copy lives,
so after the failed ingestion the backing file of the still-existing row is
gone instead of unchanged. -/
theorem buildFromLocalFile_duplicate_removes_file :
    (buildFromLocalFile dupLibState dupIngestEnv).2 =
      BuildRes.err IngestErr.uniqueMd5Violation ∧
    (buildFromLocalFile dupLibState dupIngestEnv).1.audioRows = ["abc123"] ∧
    "abc123.mp3" ∈ dupLibState.files ∧
    "abc123.mp3" ∉ (buildFromLocalFile dupLibState dupIngestEnv).1.files := by
  refine ⟨rfl, rfl, by decide, by decide⟩

/-- C5: `setupDefaultAttributes` of both Audio and Video assigns
`id = uuidv5(userId + "/" + md5, uuidv5.URL)` — whatever the metadata-probe
outcome — so the same user importing the same file bytes (same md5) always
receives the same id, even across the two asset kinds. -/
theorem setup_attributes_deterministic_id (f : String → String → String) (userId : String)
    (pa pv : Option (List (String × String))) (a : AudioRec) (v : VideoRec) :
    (audioSetupDefaultAttributes f userId pa a).id =
      f (userId ++ "/" ++ a.md5) uuidURLNamespace ∧
    (videoSetupDefaultAttributes f userId pv v).id =
      f (userId ++ "/" ++ v.md5) uuidURLNamespace ∧
    (a.md5 = v.md5 →
      (audioSetupDefaultAttributes f userId pa a).id =
        (videoSetupDefaultAttributes f userId pv v).id) := by
  refine ⟨?_, ?_, ?_⟩
  · cases pa <;> rfl
  · cases pv <;> rfl
  · intro h
    cases pa <;> cases pv <;>
      simp [audioSetupDefaultAttributes, videoSetupDefaultAttributes, h]

/-- C5 (witness): an Audio and a Video built by the same user from the same
bytes receive the same id, across differing probe outcomes. -/
theorem setup_attributes_deterministic_id_witness :
    (audioSetupDefaultAttributes (fun s n => s ++ "|" ++ n) "u1" none
        { id := "", md5 := "abc123", metadata := [] }).id =
      (videoSetupDefaultAttributes (fun s n => s ++ "|" ++ n) "u1"
        (some [("extname", ".mp4")])
        { id := "", md5 := "abc123", metadata := [] }).id :=
  (setup_attributes_deterministic_id (fun s n => s ++ "|" ++ n) "u1" none
    (some [("extname", ".mp4")])
    { id := "", md5 := "abc123", metadata := [] }
    { id := "", md5 := "abc123", metadata := [] }).2.2 rfl

/-- C6: the shared `isSynced` getter holds exactly when `syncedAt` is
non-null and at least `updatedAt`; and any mutation that moves `updatedAt`
past the recorded `syncedAt` makes `isSynced` false. -/
theorem isSynced_iff_synced_at_ge_updated_at (s : SyncStamps) (now : Nat) :
    (isSynced s = true ↔ ∃ t, s.syncedAt = some t ∧ s.updatedAt ≤ t) ∧
    ((∀ t, s.syncedAt = some t → t < now) → isSynced (recordUpdate s now) = false) := by
  constructor
  · cases hs : s.syncedAt with
    | none => simp [isSynced, hs]
    | some t => simp [isSynced, hs]
  · intro hlt
    cases hs : s.syncedAt with
    | none => simp [isSynced, recordUpdate, hs]
    | some t =>
      have ht := hlt t hs
      simp [isSynced, recordUpdate, hs]
      omega

/-- C6 (witness): a freshly synced record is synced; mutating it afterwards
makes it stale. -/
theorem isSynced_iff_synced_at_ge_updated_at_witness :
    isSynced { syncedAt := some 5, updatedAt := 3 } = true ∧
    isSynced (recordUpdate { syncedAt := some 5, updatedAt := 3 } 7) = false := by
  constructor
  · exact (isSynced_iff_synced_at_ge_updated_at
      { syncedAt := some 5, updatedAt := 3 } 7).1.mpr ⟨5, rfl, by decide⟩
  · refine (isSynced_iff_synced_at_ge_updated_at
      { syncedAt := some 5, updatedAt := 3 } 7).2 ?_
    intro t ht
    have h5 : (some 5 : Option Nat) = some t := ht
    injection h5 with h5
    omega

/-- C7: `upload` skips when `uploadedAt` is already set and force is off;
whenever the remote blob-put is attempted, `uploadedAt` is stamped with the
current time exactly on a reported success, while a reported non-success or
a transport failure raises and leaves the stamps unchanged (retryable). -/
theorem upload_skip_and_timestamp (r : UploadStamps) (force : Bool) (put : PutOutcome)
    (now : Nat) :
    (r.uploadedAt.isSome = true → force = false →
      upload r force put now = { stamps := r, res := UploadRes.skipped, putCalls := 0 }) ∧
    ((upload r force put now).putCalls = 1 →
      (put = PutOutcome.success →
        (upload r force put now).stamps.uploadedAt = some now ∧
        (upload r force put now).res = UploadRes.uploaded) ∧
      (put ≠ PutOutcome.success →
        (upload r force put now).res = UploadRes.failed ∧
        (upload r force put now).stamps = r)) := by
  constructor
  · intro hu hf
    subst hf
    simp [upload, hu]
  · intro h1
    by_cases hg : (r.uploadedAt.isSome && !force) = true
    · rw [show upload r force put now =
          { stamps := r, res := UploadRes.skipped, putCalls := 0 } by
            unfold upload; rw [if_pos hg]] at h1
      exact absurd h1 (by simp)
    · constructor
      · intro hp
        subst hp
        simp [upload, hg]
      · intro hp
        cases put with
        | success => exact absurd rfl hp
        | reportedFailure => simp [upload, hg]
        | transportError => simp [upload, hg]

/-- C7 (witness): a never-uploaded asset whose blob-put succeeds gets
`uploadedAt = now`; one whose collaborator reports failure keeps its stamps. -/
theorem upload_skip_and_timestamp_witness :
    (upload { uploadedAt := none } false PutOutcome.success 9).stamps.uploadedAt = some 9 ∧
    (upload { uploadedAt := none } false PutOutcome.reportedFailure 9).stamps =
      { uploadedAt := none } ∧
    upload { uploadedAt := some 4 } false PutOutcome.success 9 =
      { stamps := { uploadedAt := some 4 }, res := UploadRes.skipped, putCalls := 0 } := by
  refine ⟨?_, ?_, ?_⟩
  · exact ((upload_skip_and_timestamp { uploadedAt := none } false PutOutcome.success 9).2
      rfl).1 rfl |>.1
  · exact ((upload_skip_and_timestamp { uploadedAt := none } false
      PutOutcome.reportedFailure 9).2 rfl).2 (by decide) |>.2
  · exact (upload_skip_and_timestamp { uploadedAt := some 4 } false
      PutOutcome.success 9).1 rfl rfl

/-- C8 (counterexample): the counter hooks do nothing for a Recording
targeting a Video: after creating one, the parent Video's counters are still
`(0, 0)` although one live Recording row of duration 5 is attached to it, so
the counters do not match the live rows for Video targets. -/
theorem recording_counters_video_cex :
    (createRecording regState0 videoRecordingRow).videoCounters "v1" = (0, 0) ∧
    (liveVideoRecordings (createRecording regState0 videoRecordingRow) "v1").length = 1 ∧
    ¬ videoConsistent (createRecording regState0 videoRecordingRow) "v1" := by
  refine ⟨rfl, rfl, ?_⟩
  intro hcon
  unfold videoConsistent at hcon
  exact absurd hcon (by decide)

/-- Helper: neither counter hook changes the list of Recording rows, so a
create ends with the new row consed on. -/
theorem createRecording_recordings (st : RegState) (r : RecordingRow) :
    (createRecording st r).recordings = r :: st.recordings := by
  unfold createRecording increaseResourceCache
  split <;> rfl

/-- Helper: a destroy ends with the row erased. -/
theorem destroyRecording_recordings (st : RegState) (r : RecordingRow) :
    (destroyRecording st r).recordings = st.recordings.erase r := by
  unfold destroyRecording decreaseResourceCache
  split <;> rfl

/-- Helper: for an Audio-targeted Recording the create hook bumps the Audio
counters. -/
theorem createRecording_audioCounters_audio (st : RegState) (r : RecordingRow)
    (hA : r.targetType = "Audio") :
    (createRecording st r).audioCounters =
      bumpCounters st.audioCounters r.targetId 1 r.duration := by
  unfold createRecording increaseResourceCache
  rw [if_neg (by simp [hA])]

/-- Helper: for a non-Audio-targeted Recording the create hook leaves the
Audio counters alone. -/
theorem createRecording_audioCounters_other (st : RegState) (r : RecordingRow)
    (hA : ¬ r.targetType = "Audio") :
    (createRecording st r).audioCounters = st.audioCounters := by
  unfold createRecording increaseResourceCache
  rw [if_pos hA]

/-- Helper: for an Audio-targeted Recording the destroy hook bumps the Audio
counters down. -/
theorem destroyRecording_audioCounters_audio (st : RegState) (r : RecordingRow)
    (hA : r.targetType = "Audio") :
    (destroyRecording st r).audioCounters =
      bumpCounters st.audioCounters r.targetId (-1) (-r.duration) := by
  unfold destroyRecording decreaseResourceCache
  rw [if_pos hA]

/-- Helper: for a non-Audio-targeted Recording the destroy hook leaves the
Audio counters alone. -/
theorem destroyRecording_audioCounters_other (st : RegState) (r : RecordingRow)
    (hA : ¬ r.targetType = "Audio") :
    (destroyRecording st r).audioCounters = st.audioCounters := by
  unfold destroyRecording decreaseResourceCache
  rw [if_neg hA]

/-- Helper: a counter bump read back at the bumped id. -/
theorem bumpCounters_self (m : String → Int × Int) (id0 id : String) (dc dd : Int)
    (h : id = id0) :
    bumpCounters m id0 dc dd id = ((m id).1 + dc, (m id).2 + dd) := by
  unfold bumpCounters
  rw [if_pos h]

/-- Helper: a counter bump read back at any other id. -/
theorem bumpCounters_other (m : String → Int × Int) (id0 id : String) (dc dd : Int)
    (h : ¬ id = id0) :
    bumpCounters m id0 dc dd id = m id := by
  unfold bumpCounters
  rw [if_neg h]

/-- C8 (amended): the hooks maintain the counters only for Recordings whose
`targetType` is `"Audio"`: creating such a Recording adds 1 and its duration
to the parent Audio's counters and destroying it subtracts them, preserving
agreement between the Audio's counters and its live Recording rows; a
Recording targeting a Video leaves the Audio counters alone and never touches
the Video's counters at all. -/
theorem recording_counters_audio_consistent (st : RegState) (r : RecordingRow) (id : String) :
    (audioConsistent st id → audioConsistent (createRecording st r) id) ∧
    (audioConsistent st id → r ∈ st.recordings →
      audioConsistent (destroyRecording st r) id) ∧
    (r.targetType = "Video" →
      (createRecording st r).audioCounters = st.audioCounters ∧
      (createRecording st r).videoCounters = st.videoCounters ∧
      (destroyRecording st r).videoCounters = st.videoCounters) := by
  refine ⟨?_, ?_, ?_⟩
  · intro h
    unfold audioConsistent liveAudioRecordings at h ⊢
    rw [createRecording_recordings]
    by_cases hA : r.targetType = "Audio"
    · rw [createRecording_audioCounters_audio st r hA]
      by_cases hI : r.targetId = id
      · have hpr : (fun x : RecordingRow => x.targetType = "Audio" && x.targetId = id) r
            = true := by simp [hA, hI]
        rw [bumpCounters_self st.audioCounters r.targetId id 1 r.duration hI.symm, h,
          List.filter_cons, if_pos hpr]
        simp only [Prod.mk.injEq, List.length_cons, List.map_cons, List.sum_cons]
        constructor
        · omega
        · ring
      · have hpr : (fun x : RecordingRow => x.targetType = "Audio" && x.targetId = id) r
            = false := by simp [hA, hI]
        rw [bumpCounters_other st.audioCounters r.targetId id 1 r.duration
          (fun hh => hI hh.symm), List.filter_cons, if_neg (by simp [hpr]), h]
    · rw [createRecording_audioCounters_other st r hA]
      have hpr : (fun x : RecordingRow => x.targetType = "Audio" && x.targetId = id) r
          = false := by simp [hA]
      rw [List.filter_cons, if_neg (by simp [hpr]), h]
  · intro h hmem
    have hperm : st.recordings.Perm (r :: st.recordings.erase r) :=
      List.perm_cons_erase hmem
    have hfil := hperm.filter
      (fun x : RecordingRow => x.targetType = "Audio" && x.targetId = id)
    unfold audioConsistent liveAudioRecordings at h ⊢
    rw [destroyRecording_recordings]
    by_cases hA : r.targetType = "Audio"
    · rw [destroyRecording_audioCounters_audio st r hA]
      by_cases hI : r.targetId = id
      · have hpr : (fun x : RecordingRow => x.targetType = "Audio" && x.targetId = id) r
            = true := by simp [hA, hI]
        rw [List.filter_cons, if_pos hpr] at hfil
        have hlen := hfil.length_eq
        have hsum := (hfil.map RecordingRow.duration).sum_eq
        simp only [List.length_cons, List.map_cons, List.sum_cons] at hlen hsum
        rw [bumpCounters_self st.audioCounters r.targetId id (-1) (-r.duration) hI.symm, h]
        simp only [Prod.mk.injEq]
        constructor
        · rw [hlen]
          omega
        · rw [hsum]
          ring
      · have hpr : (fun x : RecordingRow => x.targetType = "Audio" && x.targetId = id) r
            = false := by simp [hA, hI]
        rw [List.filter_cons, if_neg (by simp [hpr])] at hfil
        rw [bumpCounters_other st.audioCounters r.targetId id (-1) (-r.duration)
          (fun hh => hI hh.symm), h, hfil.length_eq,
          (hfil.map RecordingRow.duration).sum_eq]
    · rw [destroyRecording_audioCounters_other st r hA]
      have hpr : (fun x : RecordingRow => x.targetType = "Audio" && x.targetId = id) r
          = false := by simp [hA]
      rw [List.filter_cons, if_neg (by simp [hpr])] at hfil
      rw [h, hfil.length_eq, (hfil.map RecordingRow.duration).sum_eq]
  · intro hV
    have hA : ¬ r.targetType = "Audio" := by
      rw [hV]
      simp
    refine ⟨createRecording_audioCounters_other st r hA, ?_, ?_⟩
    · unfold createRecording increaseResourceCache
      split <;> rfl
    · unfold destroyRecording decreaseResourceCache
      split <;> rfl

/-- C8 (witness): creating a Recording attached to the Audio row `a1` in an
empty, consistent registry leaves that Audio's counters consistent. -/
theorem recording_counters_audio_consistent_witness :
    audioConsistent (createRecording regState0 audioRecordingRow) "a1" :=
  (recording_counters_audio_consistent regState0 audioRecordingRow "a1").1
    (by unfold audioConsistent; decide)

/-- Helper: the `updated` handlers never touch the file on disk, and the only
settlement they can introduce is `resolve(undefined)`. -/
theorem foldl_handleUpdated_settled (upds : List DlState) (acc : DlAcc)
    (h : acc.settled = none ∨ acc.settled = some (Settle.resolved none)) :
    ((upds.foldl handleUpdated acc).settled = none ∨
     (upds.foldl handleUpdated acc).settled = some (Settle.resolved none)) ∧
    (upds.foldl handleUpdated acc).hasFile = acc.hasFile := by
  induction upds generalizing acc with
  | nil => exact ⟨h, rfl⟩
  | cons s rest ih =>
    have hstep : ((handleUpdated acc s).settled = none ∨
        (handleUpdated acc s).settled = some (Settle.resolved none)) ∧
        (handleUpdated acc s).hasFile = acc.hasFile := by
      rcases h with h | h <;> by_cases hsi : s = DlState.interrupted <;>
        simp [handleUpdated, settleOnce, hsi, h]
    simp only [List.foldl_cons]
    exact ⟨(ih (handleUpdated acc s) hstep.1).1,
           (ih (handleUpdated acc s) hstep.1).2.trans hstep.2⟩

/-- Helper: when no `updated` event reports `interrupted`, the `updated`
handlers change nothing at all. -/
theorem foldl_handleUpdated_no_interrupted (upds : List DlState) (acc : DlAcc)
    (h : DlState.interrupted ∉ upds) :
    upds.foldl handleUpdated acc = acc := by
  induction upds generalizing acc with
  | nil => rfl
  | cons s rest ih =>
    simp only [List.mem_cons, not_or] at h
    simp only [List.foldl_cons]
    rw [show handleUpdated acc s = acc by
      unfold handleUpdated
      rw [if_neg (fun hh => h.1 hh.symm)]]
    exact ih acc h.2

/-- C9: whenever the one terminal `done` event reports any state other than
`completed` — which is what an interrupted transfer or an Electron-level
cancellation triggered by `cancel(name)` / `cancelAll()` produces — the
handler deletes the partial file at the configured save path
(`fs.rmSync(..., force)`) and the download promise resolves to no file;
`cancel(name)` itself aborts the item only when it is still `progressing`,
and the aborted item finishes through the same non-`completed` path. -/
theorem download_noncompleted_cleanup (savePath : String) (upds : List DlState)
    (final : DlState) (tasks : List (String × DlState)) (filename : String)
    (h : final ≠ DlState.completed) :
    ((runDownload savePath upds final).hasFile = false ∧
     (runDownload savePath upds final).settled = some (Settle.resolved none)) ∧
    (cancelTriggersAbort tasks filename = true →
      (runDownload savePath upds DlState.cancelled).hasFile = false ∧
      (runDownload savePath upds DlState.cancelled).settled =
        some (Settle.resolved none)) := by
  have hmain : ∀ f2, f2 ≠ DlState.completed →
      (runDownload savePath upds f2).hasFile = false ∧
      (runDownload savePath upds f2).settled = some (Settle.resolved none) := by
    intro f2 hf2
    obtain ⟨hs, hh⟩ := foldl_handleUpdated_settled upds
      { settled := none, hasFile := true } (Or.inl rfl)
    unfold runDownload handleDone
    rw [if_neg hf2]
    rcases hs with hs | hs <;> simp [settleOnce, hs]
  exact ⟨hmain final h, fun _ => hmain DlState.cancelled (by decide)⟩

/-- C9 (witness): a cancelled transfer at a concrete save path ends with no
file on disk and an undefined result. -/
theorem download_noncompleted_cleanup_witness :
    (runDownload "/lib/videos/v.mp4" [DlState.progressing, DlState.progressing]
      DlState.cancelled).hasFile = false ∧
    (runDownload "/lib/videos/v.mp4" [DlState.progressing, DlState.progressing]
      DlState.cancelled).settled = some (Settle.resolved none) :=
  (download_noncompleted_cleanup "/lib/videos/v.mp4"
    [DlState.progressing, DlState.progressing] DlState.cancelled
    [("v.mp4", DlState.progressing)] "v.mp4" (by decide)).1

/-- C10 (counterexample): the promise does not always resolve with the saved
path when the transfer completes: an `updated` event reporting `interrupted`
resolves it to `undefined` at once, and a promise settles only once, so a
transfer that is interrupted, resumed and then completed still yields
`undefined` instead of the saved path. -/
theorem download_completed_after_interrupted_cex :
    (runDownload "talk.mp3" [DlState.interrupted] DlState.completed).settled =
      some (Settle.resolved none) ∧
    (runDownload "talk.mp3" [DlState.interrupted] DlState.completed).settled ≠
      some (Settle.resolved (some "talk.mp3")) := by
  refine ⟨rfl, by decide⟩

/-- C10 (amended): `download` never rejects — for every event trace the
promise settles through `resolve`, so callers observe failure only as an
`undefined` result; it resolves with the saved file's path when the transfer
completes without any intermediate `interrupted` report, and with `undefined`
on every non-`completed` terminal state (and also as soon as an `updated`
event reports `interrupted`, which a later completion can no longer
override). -/
theorem download_never_rejects (savePath : String) (upds : List DlState)
    (final : DlState) :
    (∃ v, (runDownload savePath upds final).settled = some (Settle.resolved v)) ∧
    (runDownload savePath upds final).settled ≠ some Settle.rejected ∧
    (DlState.interrupted ∉ upds → final = DlState.completed →
      (runDownload savePath upds final).settled =
        some (Settle.resolved (some savePath))) ∧
    (final ≠ DlState.completed →
      (runDownload savePath upds final).settled = some (Settle.resolved none)) := by
  obtain ⟨hs, hh⟩ := foldl_handleUpdated_settled upds
    { settled := none, hasFile := true } (Or.inl rfl)
  have hex : ∃ v, (runDownload savePath upds final).settled =
      some (Settle.resolved v) := by
    unfold runDownload handleDone
    by_cases hc : final = DlState.completed
    · rw [if_pos hc]
      rcases hs with hs | hs
      · exact ⟨some savePath, by simp [settleOnce, hs]⟩
      · exact ⟨none, by simp [settleOnce, hs]⟩
    · rw [if_neg hc]
      rcases hs with hs | hs
      · exact ⟨none, by simp [settleOnce, hs]⟩
      · exact ⟨none, by simp [settleOnce, hs]⟩
  refine ⟨hex, ?_, ?_, ?_⟩
  · obtain ⟨v, hv⟩ := hex
    rw [hv]
    intro hbad
    injection hbad with hbad
    exact Settle.noConfusion hbad
  · intro hni hc
    rw [runDownload, foldl_handleUpdated_no_interrupted upds _ hni]
    unfold handleDone
    rw [if_pos hc]
    rfl
  · intro hc
    unfold runDownload handleDone
    rw [if_neg hc]
    rcases hs with hs | hs <;> simp [settleOnce, hs]

/-- C10 (witness): an uneventful completed transfer resolves with the saved
path. -/
theorem download_never_rejects_witness :
    (runDownload "/lib/videos/w.mp4" [DlState.progressing]
      DlState.completed).settled = some (Settle.resolved (some "/lib/videos/w.mp4")) :=
  (download_never_rejects "/lib/videos/w.mp4" [DlState.progressing]
    DlState.completed).2.2.1 (by decide) rfl

end Enjoy
